import Mathlib

/-!
Shallow embedding of the Azure reserved-instance repurchase pipeline
(`generate_json_payload.py`, `calculate_reservation_order.py`,
`azure_purchase_api.py`) and proofs about its payload rendering, safety
gate, calculation phase and batch purchase executor.

Modelling conventions:
* A CSV cell is `Option String`: `none` models a pandas `NaN` cell,
  `some s` a string-valued cell.  A row is an association list from
  column name to cell; a missing key models a column absent from the row.
* Python exceptions become `Except PyError`; the distinct exception
  classes and messages raised by the source are mirrored in `PyError`
  (row-number and context fragments of messages are kept where the
  source includes them).
* JSON documents built by the source (dict/list literals) become the
  `Json` inductive; dict insertion order is preserved.
* `str.strip()` / `str.lower()` are modelled by the ASCII-exact
  `pyStrip` / `pyLower` (Python also handles non-ASCII whitespace and
  letters; the pipeline compares against ASCII literals only).
* `int(x)` on a cell is `cellInt`: `ValueError` on a NaN cell or a
  non-integer string.  (Python's underscore digit grouping is not
  modelled.)
* Network I/O is abstracted by response values handed to the functions:
  the calculate phase takes one `ApiResponse` per row, the purchase
  executor one transport outcome per request.  Console printing,
  CSV serialization and `time.sleep` pacing are external effects with
  no bearing on the data flow and are not modelled.
-/

/-- One CSV cell: `none` models a pandas NaN, `some s` a string value. -/
abbrev Cell := Option String

/-- One CSV row: association list from column name to cell.  A column
absent from the row is a missing key (`List.lookup` returns `none`). -/
abbrev Row := List (String × Cell)

/-- JSON values as built by the Python dict/list literals.  `nan` models
a pandas NaN float flowing into a payload unconverted. -/
inductive Json where
  | null : Json
  | str : String → Json
  | num : Int → Json
  | bool : Bool → Json
  | nan : Json
  | arr : List Json → Json
  | obj : List (String × Json) → Json

/-- The Python exception classes raised by the embedded code. -/
inductive PyError where
  | keyError (col : String)
  | valueError (msg : String)
  | attributeError (msg : String)
  | exception (msg : String)
deriving DecidableEq, Repr

/-- ASCII lower-casing of a character, as `str.lower()` does on the
ASCII range (the only range the pipeline compares against). -/
def lowerChar (c : Char) : Char :=
  if 65 ≤ c.toNat ∧ c.toNat ≤ 90 then Char.ofNat (c.toNat + 32) else c

/-- `str.lower()` restricted to ASCII letters. -/
def pyLower (s : String) : String := ⟨s.data.map lowerChar⟩

/-- The whitespace characters `str.strip()` removes (ASCII part). -/
def pySpace (c : Char) : Bool :=
  c = ' ' || c = '\t' || c = '\n' || c = '\r' || c = '\x0b' || c = '\x0c'

/-- `str.strip()`: drop leading and trailing whitespace. -/
def pyStrip (s : String) : String :=
  ⟨((s.data.dropWhile pySpace).reverse.dropWhile pySpace).reverse⟩

/-- `str(cell)`: a NaN float prints as `"nan"`, a string is itself. -/
def pyStr (c : Cell) : String :=
  match c with
  | none => "nan"
  | some s => s

/-- A cell carried unconverted into a JSON payload (pandas NaN stays a
NaN float, which `json.dumps` renders as `NaN`). -/
def cellJson (c : Cell) : Json :=
  match c with
  | none => Json.nan
  | some s => Json.str s

/-- Parse the digit characters of a decimal numeral; `none` unless the
list is non-empty and all digits. -/
def digitsVal (cs : List Char) : Option Nat :=
  if cs ≠ [] ∧ cs.all Char.isDigit then
    some (cs.foldl (fun n c => 10 * n + (c.toNat - 48)) 0)
  else none

/-- `int(s)` on a string: surrounding whitespace allowed, optional sign,
then decimal digits; anything else raises `ValueError`. -/
def pyIntOfString (s : String) : Option Int :=
  match (pyStrip s).data with
  | '+' :: rest => (digitsVal rest).map Int.ofNat
  | '-' :: rest => (digitsVal rest).map (fun n => -(n : Int))
  | cs => (digitsVal cs).map Int.ofNat

/-- `int(cell)`: a NaN cell or a non-integer string raises `ValueError`. -/
def cellInt (c : Cell) : Except PyError Int :=
  match c with
  | none => .error (.valueError "cannot convert float NaN to integer")
  | some s =>
    match pyIntOfString s with
    | some n => .ok n
    | none => .error (.valueError ("invalid literal for int with base 10: " ++ s))

/-- `row[col]`: raises `KeyError` when the column is absent. -/
def reqCell (row : Row) (col : String) : Except PyError Cell :=
  match List.lookup col row with
  | some c => .ok c
  | none => .error (.keyError col)

/-- Dict field lookup on a JSON object (`none` when not an object or the
key is absent). -/
def jlookup (j : Json) (k : String) : Option Json :=
  match j with
  | .obj fs => List.lookup k fs
  | _ => none

/-- `d.get(k, {})`: field lookup defaulting to an empty dict. -/
def jgetD (j : Json) (k : String) : Json :=
  (jlookup j k).getD (Json.obj [])

/-- Python truthiness of a JSON value (`if not x` semantics). -/
def pyTruthy (j : Json) : Bool :=
  match j with
  | .null => false
  | .str s => s ≠ ""
  | .num n => n ≠ 0
  | .bool b => b
  | .nan => true
  | .arr l => !l.isEmpty
  | .obj l => !l.isEmpty

/-- Look a key up in a rendered payload's `properties` object. -/
def getProp (payload : Json) (k : String) : Option Json :=
  match jlookup payload "properties" with
  | some props => jlookup props k
  | none => none

-- sanity checks on the Python-primitive models
example : pyLower "YeS" = "yes" := by decide
example : pyStrip "  x y\t" = "x y" := by decide
example : pyIntOfString " -12 " = some (-12) := by decide
example : pyIntOfString "2.5" = none := by decide
example : pyIntOfString "0" = some 0 := by decide

/-! ## `calculate_reservation_order.build_calculate_payload` -/

/-- `build_calculate_payload(row)` (calculate_reservation_order.py,
lines 14-34): renders the Calculate-API payload.  `appliedScopes` is the
raw cell value, nulled when NaN or the empty string; the
`reservedResourceProperties` block is always present with the raw
`InstanceFlexibility` cell; no `renew` field.  Field accesses follow the
evaluation order of the Python dict literal, so the first missing column
raises its `KeyError`. -/
def build_calculate_payload (row : Row) : Except PyError Json := do
  let sku ← reqCell row "SKU-name"
  let loc ← reqCell row "azure region"
  let rtype ← reqCell row "reservedResourceType"
  let sub ← reqCell row "subscription"
  let term ← reqCell row "term"
  let plan ← reqCell row "billingPlan"
  let qtyCell ← reqCell row "quantity"
  let qty ← cellInt qtyCell
  let disp ← reqCell row "displayName"
  let scopes ← reqCell row "appliedScopes"
  let scopeT ← reqCell row "appliedScopeType"
  let flex ← reqCell row "InstanceFlexibility"
  .ok (Json.obj [
    ("sku", Json.obj [("name", cellJson sku)]),
    ("location", cellJson loc),
    ("properties", Json.obj [
      ("reservedResourceType", cellJson rtype),
      ("billingScopeId", Json.str ("/subscriptions/" ++ pyStr sub)),
      ("term", cellJson term),
      ("billingPlan", cellJson plan),
      ("quantity", Json.num qty),
      ("displayName", cellJson disp),
      ("appliedScopes",
        match scopes with
        | none => Json.null
        | some s => if s = "" then Json.null else Json.str s),
      ("appliedScopeType", cellJson scopeT),
      ("reservedResourceProperties", Json.obj [
        ("instanceFlexibility", cellJson flex)])])])

/-! ## `generate_json_payload` gate predicates -/

/-- `is_purchase_confirmed(value)` (generate_json_payload.py, lines
113-118): NaN is not confirmed; otherwise the stripped, lower-cased
value must be one of 1, y, yes. -/
def is_purchase_confirmed (value : Cell) : Bool :=
  match value with
  | none => false
  | some v =>
    let value_str := pyLower (pyStrip (pyStr (some v)))
    value_str = "1" || value_str = "y" || value_str = "yes"

/-- `is_purchase_trigger_set(value)` (generate_json_payload.py, lines
121-126): same normalization as `is_purchase_confirmed`. -/
def is_purchase_trigger_set (value : Cell) : Bool :=
  match value with
  | none => false
  | some v =>
    let value_str := pyLower (pyStrip (pyStr (some v)))
    value_str = "1" || value_str = "y" || value_str = "yes"

/-! ## `generate_json_payload.generate_api_payloads_with_order_ids` -/

/-- Lines 149-157 of generate_json_payload.py: the purchase renderer's
appliedScopes block.  A NaN or empty cell leaves `applied_scopes = None`
without consulting the scope type; otherwise
`row["appliedScopeType"].lower()` (unstripped!) is compared with
"single" — calling `.lower()` on a NaN float raises `AttributeError`. -/
def purchaseAppliedScopes (row : Row) : Except PyError (Option Json) := do
  let v ← reqCell row "appliedScopes"
  match v with
  | none => .ok none
  | some s =>
    if s = "" then .ok none
    else do
      let t ← reqCell row "appliedScopeType"
      match t with
      | none => .error (.attributeError "float object has no attribute lower")
      | some ts =>
        if pyLower ts = "single" then .ok (some (Json.str s)) else .ok none

/-- Lines 159-172 of generate_json_payload.py: the purchase renderer's
reservedResourceProperties block.  An empty list models the empty dict
(block later omitted); the non-VM warning print is not modelled. -/
def purchaseRRP (row : Row) : Except PyError (List (String × Json)) := do
  let rt ← reqCell row "reservedResourceType"
  let resource_type := pyStrip (pyStr rt)
  if pyLower resource_type = "virtualmachines" then
    match List.lookup "InstanceFlexibility" row with
    | none =>
      .error (.valueError "InstanceFlexibility is required when reservedResourceType is VirtualMachines")
    | some none =>
      .error (.valueError "InstanceFlexibility is required when reservedResourceType is VirtualMachines")
    | some (some f) => .ok [("instanceFlexibility", Json.str f)]
  else
    .ok []

/-- Lines 149-195 of generate_json_payload.py: the purchase payload
rendered for one row that passed both gate checks.  Dict fields are
evaluated in source order. -/
def purchasePayloadRow (row : Row) : Except PyError Json := do
  let applied ← purchaseAppliedScopes row
  let rrp ← purchaseRRP row
  let rtype ← reqCell row "reservedResourceType"
  let sub ← reqCell row "subscription"
  let term ← reqCell row "term"
  let plan ← reqCell row "billingPlan"
  let qtyCell ← reqCell row "quantity"
  let qty ← cellInt qtyCell
  let disp ← reqCell row "displayName"
  let scopeT ← reqCell row "appliedScopeType"
  let renewCell ← reqCell row "renew"
  let props := Json.obj ([
    ("reservedResourceType", cellJson rtype),
    ("billingScopeId", Json.str ("/subscriptions/" ++ pyStr sub)),
    ("term", cellJson term),
    ("billingPlan", cellJson plan),
    ("quantity", Json.num qty),
    ("displayName", cellJson disp),
    ("appliedScopes",
      match applied with
      | none => Json.null
      | some j => Json.arr [j]),
    ("appliedScopeType", cellJson scopeT),
    ("renew", Json.bool (pyLower (pyStrip (pyStr renewCell)) = "yes"))] ++
    (if rrp.isEmpty then [] else [("reservedResourceProperties", Json.obj rrp)]))
  let sku ← reqCell row "SKU-name"
  let loc ← reqCell row "azure region"
  .ok (Json.obj [
    ("sku", Json.obj [("name", cellJson sku)]),
    ("location", cellJson loc),
    ("properties", props)])

/-- One correlated calculation result as fed to
`generate_api_payloads_with_order_ids`: the fields of the dict built at
calculate_reservation_order.py lines 107-112. -/
structure CalcResult where
  input_row : Row
  calculate_request : Json
  calculate_response : Json
  reservation_order_id : Json

/-- One element of the list returned by the payload generators: the dict
with keys payload and reservation_order_id. -/
structure PayloadEntry where
  payload : Json
  reservation_order_id : Json

/-- The disposition of one correlated entry inside the safety gate. -/
inductive EntryOutcome where
  | skippedTrigger : EntryOutcome
  | skippedConfirmation : EntryOutcome
  | payload : PayloadEntry → EntryOutcome

/-- Lines 144-199 of generate_json_payload.py: the tail of the
`generate_api_payloads_with_order_ids` loop body after the trigger
check — the confirmation check (run only when the Purchased Confirmed
column is present) followed by the rendering of the entry. -/
def confirmAndRender (r : CalcResult) : Except PyError EntryOutcome :=
  if (match List.lookup "Purchased Confirmed" r.input_row with
      | some c => !is_purchase_confirmed c
      | none => false) then
    .ok .skippedConfirmation
  else
    (purchasePayloadRow r.input_row).map fun pld =>
      .payload { payload := pld, reservation_order_id := r.reservation_order_id }

/-- Lines 135-199 of generate_json_payload.py: the loop body of
`generate_api_payloads_with_order_ids` for one correlated entry.  The
trigger check runs first and only when the Purchase Trigger column is
present (line 140); an entry it skips never reaches the confirmation
check or the renderer. -/
def processCalculationResult (r : CalcResult) : Except PyError EntryOutcome :=
  if (match List.lookup "Purchase Trigger" r.input_row with
      | some c => !is_purchase_trigger_set c
      | none => false) then
    .ok .skippedTrigger
  else
    confirmAndRender r

/-- `generate_api_payloads_with_order_ids(calculation_results)`
(generate_json_payload.py, lines 129-210).  Besides the returned payload
list, the two skip tallies the source prints at lines 201-208 are
returned so the gate's dispositions are observable. -/
def generate_api_payloads_with_order_ids :
    List CalcResult → Except PyError (List PayloadEntry × Nat × Nat)
  | [] => .ok ([], 0, 0)
  | r :: rest => do
    let o ← processCalculationResult r
    let (ps, snt, snc) ← generate_api_payloads_with_order_ids rest
    match o with
    | .skippedTrigger => .ok (ps, snt + 1, snc)
    | .skippedConfirmation => .ok (ps, snt, snc + 1)
    | .payload p => .ok (p :: ps, snt, snc)

/-! ## `generate_json_payload.generate_api_payloads` -/

/-- Lines 69-82 of generate_json_payload.py: the reservedResourceProperties
block of `generate_api_payloads` (same logic as `purchaseRRP`, with the
row number in the error message, as the source duplicates it). -/
def apiRRP (index : Nat) (row : Row) : Except PyError (List (String × Json)) := do
  let rt ← reqCell row "reservedResourceType"
  let resource_type := pyStrip (pyStr rt)
  if pyLower resource_type = "virtualmachines" then
    match List.lookup "InstanceFlexibility" row with
    | none =>
      .error (.valueError ("InstanceFlexibility is required when reservedResourceType is VirtualMachines in row " ++ toString (index + 1)))
    | some none =>
      .error (.valueError ("InstanceFlexibility is required when reservedResourceType is VirtualMachines in row " ++ toString (index + 1)))
    | some (some f) => .ok [("instanceFlexibility", Json.str f)]
  else
    .ok []

/-- Lines 48-54 of generate_json_payload.py: the `applied_scopes_value`
local of `generate_api_payloads` — NaN becomes the empty string,
anything else is `str(...)`-converted and stripped. -/
def applied_scopes_value (asCell : Cell) : String :=
  match asCell with
  | none => ""
  | some v => pyStrip (pyStr (some v))

/-- Lines 33-67 of generate_json_payload.py: the validation and
appliedScopes block of the `generate_api_payloads` loop body.  Checks
the two scope columns exist, the scope type is non-NaN and one of
Single/Shared/ManagementGroup (stripped, case-insensitive), and
computes the `applied_scopes` local: the stripped value (required
non-empty) for Single, `None` for Shared/ManagementGroup (a stray value
is only warned about). -/
def apiScopeGate (index : Nat) (row : Row) : Except PyError (Option String) :=
  if (List.lookup "appliedScopes" row).isNone then
    .error (.valueError ("Missing required column: appliedScopes in row " ++ toString (index + 1)))
  else if (List.lookup "appliedScopeType" row).isNone then
    .error (.valueError ("Missing required column: appliedScopeType in row " ++ toString (index + 1)))
  else
    match (List.lookup "appliedScopeType" row).getD none with
    | none => .error (.valueError ("Missing or empty appliedScopeType in row " ++ toString (index + 1)))
    | some stv =>
      let scope_type := pyLower (pyStrip stv)
      if !(scope_type = "single" || scope_type = "shared" || scope_type = "managementgroup") then
        .error (.valueError ("Invalid appliedScopeType: " ++ stv ++ " in row " ++ toString (index + 1) ++ ". Must be Single, Shared, or ManagementGroup"))
      else
        let asCell := (List.lookup "appliedScopes" row).getD none
        if scope_type = "single" then
          if applied_scopes_value asCell = "" then
            .error (.valueError ("appliedScopes is required when appliedScopeType is Single in row " ++ toString (index + 1) ++ ". Please provide a subscription or resource group scope."))
          else .ok (some (applied_scopes_value asCell))
        else
          .ok none

/-- Lines 32-109 of generate_json_payload.py: the loop body of
`generate_api_payloads` for one row (0-based `index`; the source prints
`index + 1` in messages).  Validation and the `applied_scopes` local
are `apiScopeGate`; the payload dict is built in source order (the
properties dict re-reads `row["appliedScopeType"]`, line 93). -/
def apiPayloadRow (index : Nat) (row : Row) : Except PyError Json := do
  let applied ← apiScopeGate index row
  let rrp ← apiRRP index row
  let rtype ← reqCell row "reservedResourceType"
  let sub ← reqCell row "subscription"
  let term ← reqCell row "term"
  let plan ← reqCell row "billingPlan"
  let qtyCell ← reqCell row "quantity"
  let qty ← cellInt qtyCell
  let disp ← reqCell row "displayName"
  let scopeT ← reqCell row "appliedScopeType"
  let renewCell ← reqCell row "renew"
  let props := Json.obj ([
    ("reservedResourceType", cellJson rtype),
    ("billingScopeId", Json.str ("/subscriptions/" ++ pyStr sub)),
    ("term", cellJson term),
    ("billingPlan", cellJson plan),
    ("quantity", Json.num qty),
    ("displayName", cellJson disp),
    ("appliedScopes",
      match applied with
      | none => Json.null
      | some s => Json.arr [Json.str s]),
    ("appliedScopeType", cellJson scopeT),
    ("renew", Json.bool (pyLower (pyStrip (pyStr renewCell)) = "yes"))] ++
    (if rrp.isEmpty then [] else [("reservedResourceProperties", Json.obj rrp)]))
  let sku ← reqCell row "SKU-name"
  let loc ← reqCell row "azure region"
  .ok (Json.obj [
    ("sku", Json.obj [("name", cellJson sku)]),
    ("location", cellJson loc),
    ("properties", props)])

/-- `generate_api_payloads(file_path, reservation_order_id)`
(generate_json_payload.py, lines 28-110), abstracted over the rows the
CSV reader yields (file parsing is an external collaborator).  Every
entry carries the same optional reservation order id (`Json.null`
models Python `None`). -/
def generate_api_payloads_from (reservation_order_id : Json) :
    Nat → List Row → Except PyError (List PayloadEntry)
  | _, [] => .ok []
  | index, row :: rest => do
    let pld ← apiPayloadRow index row
    let ps ← generate_api_payloads_from reservation_order_id (index + 1) rest
    .ok ({ payload := pld, reservation_order_id := reservation_order_id } :: ps)

/-! ## `calculate_reservation_order.calculate_reservation_order` -/

/-- One HTTP response of the Calculate endpoint as seen by the code:
its status code and, when `response.json()` parses, the parsed body. -/
structure ApiResponse where
  statusCode : Nat
  body : Option Json

/-- The wrapper message of calculate_reservation_order.py line 92:
exceptions raised while making the API call are re-raised as
`Exception("Failed to calculate reservation for row N (sku): msg")`. -/
def calcWrapMsg (index : Nat) (row : Row) (msg : String) : String :=
  "Failed to calculate reservation for row " ++ toString (index + 1) ++
    " (" ++ pyStr ((List.lookup "SKU-name" row).getD none) ++ "): " ++ msg

/-- Lines 62-112 of calculate_reservation_order.py: the loop body of
`calculate_reservation_order` for one row, given the endpoint's
response.  `build_calculate_payload` runs outside the try block (its
errors propagate raw); a non-200 status or an unparseable 200 body is
wrapped by the line-92 handler; a 200 body whose
`properties.reservationOrderId` is absent or falsy raises the
no-order-id `ValueError`.  Returns the appended calculation-result dict
together with the `(amount, currency)` pair extracted for the price
summary (lines 101-104), which defaults to `(0, "USD")`. -/
def calcRow (index : Nat) (row : Row) (resp : ApiResponse) :
    Except PyError (CalcResult × (Json × Json)) := do
  let calculate_payload ← build_calculate_payload row
  let result ←
    if resp.statusCode = 200 then
      match resp.body with
      | some j => Except.ok j
      | none => .error (.exception (calcWrapMsg index row "response body is not valid JSON"))
    else
      .error (.exception (calcWrapMsg index row
        ("API call failed with status " ++ toString resp.statusCode)))
  let roid := jlookup (jgetD result "properties") "reservationOrderId"
  match roid with
  | some v =>
    if pyTruthy v then
      let billing := jgetD (jgetD result "properties") "billingCurrencyTotal"
      let amount := (jlookup billing "amount").getD (Json.num 0)
      let currency := (jlookup billing "currencyCode").getD (Json.str "USD")
      .ok ({ input_row := row, calculate_request := calculate_payload,
             calculate_response := result, reservation_order_id := v },
           (amount, currency))
    else
      .error (.valueError ("No reservation order ID returned in API response for row " ++ toString (index + 1)))
  | none =>
    .error (.valueError ("No reservation order ID returned in API response for row " ++ toString (index + 1)))

/-- `calculate_reservation_order(file_path, access_token, save_to_csv)`
(calculate_reservation_order.py, lines 37-117), abstracted over the rows
the CSV reader yields and over the endpoint (`net i` is the response to
the call made for the i-th row, 0-based).  The CSV write-back of
`save_results_to_csv` is an external effect; the price pairs that feed
it are returned alongside the calculation results.  The first failing
row aborts the whole run with its error. -/
def calculate_reservation_order (net : Nat → ApiResponse) :
    Nat → List Row → Except PyError (List CalcResult × List (Json × Json))
  | _, [] => .ok ([], [])
  | index, row :: rest => do
    let (cr, price) ← calcRow index row (net index)
    let (crs, prices) ← calculate_reservation_order net (index + 1) rest
    .ok (cr :: crs, price :: prices)

/-! ## `azure_purchase_api.AzurePurchaseAPI` -/

/-- The body of one purchase HTTP response as the code consumes it:
empty content, JSON-parseable content, or content whose JSON decode
fails (raw text fallback). -/
inductive ContentBody where
  | empty : ContentBody
  | jsonBody : Json → ContentBody
  | rawText : String → ContentBody

/-- One purchase HTTP response: status code plus body content.
(Response headers are copied verbatim into the result by the source and
carry no logic; they are not modelled.) -/
structure HttpResp where
  statusCode : Int
  content : ContentBody

/-- `str(x)` of the reservation-order-id value carried in a payload
entry when it is interpolated into the request URL.  Scalars are
rendered exactly; Python's repr of containers is not modelled (no claim
exercises a non-scalar order id). -/
def pyStrOfJson (j : Json) : String :=
  match j with
  | .null => "None"
  | .str s => s
  | .num n => toString n
  | .bool b => if b then "True" else "False"
  | .nan => "nan"
  | .arr _ => "<list>"
  | .obj _ => "<dict>"

/-- One outcome of a purchase attempt: the result dict built by
`execute_purchase_request` (azure_purchase_api.py, lines 92-123). -/
structure ExecutionResult where
  reservation_order_id : Json
  status_code : Option Int
  success : Bool
  error : Option String
  url : String
  request_payload : Json
  response_body : Json

/-- `AzurePurchaseAPI.execute_purchase_request(reservation_order_id,
payload, api_version)` (azure_purchase_api.py, lines 63-123), given the
transport outcome (`Except.error` models an exception raised while
building or running the request; `Except.ok` a received response).  On
exception: success false, status code None, empty body.  On response:
success iff 200 <= status < 300; the body is the parsed JSON, `{}` for
empty content, or a `raw_content` wrapper when JSON decoding fails. -/
def execute_purchase_request (reservation_order_id : Json) (payload : Json)
    (api_version : String) (transport : Except String HttpResp) : ExecutionResult :=
  let url := "https://management.azure.com/providers/Microsoft.Capacity/reservationOrders/"
    ++ pyStrOfJson reservation_order_id ++ "?api-version=" ++ api_version
  match transport with
  | .error e =>
    { reservation_order_id := reservation_order_id
      status_code := none
      success := false
      error := some e
      url := url
      request_payload := payload
      response_body := Json.obj [] }
  | .ok resp =>
    { reservation_order_id := reservation_order_id
      status_code := some resp.statusCode
      success := 200 ≤ resp.statusCode && resp.statusCode < 300
      error := none
      url := url
      request_payload := payload
      response_body :=
        match resp.content with
        | .empty => Json.obj []
        | .jsonBody j => j
        | .rawText s => Json.obj [("raw_content", Json.str s)] }

/-- `AzurePurchaseAPI.execute_batch_purchases(purchase_payloads,
api_version, delay_between_requests)` (azure_purchase_api.py, lines
125-173), abstracted over the transport (`transport i` is the outcome of
the call for the i-th entry, 0-based).  One request per entry, in input
order; the inter-request sleep and console summary have no effect on the
returned list and are not modelled. -/
def execute_batch_purchases (purchase_payloads : List PayloadEntry)
    (api_version : String) (transport : Nat → Except String HttpResp) :
    List ExecutionResult :=
  purchase_payloads.enum.map fun ip =>
    execute_purchase_request ip.2.reservation_order_id ip.2.payload api_version (transport ip.1)

/-! ## Inversion lemmas: what a successful rendering reveals -/

/-- Successful calculate-payload rendering forces every column lookup of
`build_calculate_payload` to have succeeded and determines the payload
shape. -/
theorem build_calculate_payload_ok {row : Row} {pld : Json}
    (h : build_calculate_payload row = .ok pld) :
    ∃ sku loc rtype sub term plan qtyCell qty disp scopes scopeT flex,
      List.lookup "SKU-name" row = some sku ∧
      List.lookup "azure region" row = some loc ∧
      List.lookup "reservedResourceType" row = some rtype ∧
      List.lookup "subscription" row = some sub ∧
      List.lookup "term" row = some term ∧
      List.lookup "billingPlan" row = some plan ∧
      List.lookup "quantity" row = some qtyCell ∧
      cellInt qtyCell = .ok qty ∧
      List.lookup "displayName" row = some disp ∧
      List.lookup "appliedScopes" row = some scopes ∧
      List.lookup "appliedScopeType" row = some scopeT ∧
      List.lookup "InstanceFlexibility" row = some flex ∧
      pld = Json.obj [
        ("sku", Json.obj [("name", cellJson sku)]),
        ("location", cellJson loc),
        ("properties", Json.obj [
          ("reservedResourceType", cellJson rtype),
          ("billingScopeId", Json.str ("/subscriptions/" ++ pyStr sub)),
          ("term", cellJson term),
          ("billingPlan", cellJson plan),
          ("quantity", Json.num qty),
          ("displayName", cellJson disp),
          ("appliedScopes",
            match scopes with
            | none => Json.null
            | some s => if s = "" then Json.null else Json.str s),
          ("appliedScopeType", cellJson scopeT),
          ("reservedResourceProperties", Json.obj [
            ("instanceFlexibility", cellJson flex)])])] := by
  unfold build_calculate_payload at h
  simp only [reqCell, bind, Except.bind] at h
  rcases hsku : List.lookup "SKU-name" row with _ | sku
  · simp [hsku] at h
  simp only [hsku, bind, Except.bind] at h
  rcases hloc : List.lookup "azure region" row with _ | loc
  · simp [hloc] at h
  simp only [hloc, bind, Except.bind] at h
  rcases hrt : List.lookup "reservedResourceType" row with _ | rtype
  · simp [hrt] at h
  simp only [hrt, bind, Except.bind] at h
  rcases hsub : List.lookup "subscription" row with _ | sub
  · simp [hsub] at h
  simp only [hsub, bind, Except.bind] at h
  rcases hterm : List.lookup "term" row with _ | term
  · simp [hterm] at h
  simp only [hterm, bind, Except.bind] at h
  rcases hplan : List.lookup "billingPlan" row with _ | plan
  · simp [hplan] at h
  simp only [hplan, bind, Except.bind] at h
  rcases hqc : List.lookup "quantity" row with _ | qtyCell
  · simp [hqc] at h
  simp only [hqc, bind, Except.bind] at h
  rcases hq : cellInt qtyCell with e | qty
  · simp [hq] at h
  simp only [hq, bind, Except.bind] at h
  rcases hdisp : List.lookup "displayName" row with _ | disp
  · simp [hdisp] at h
  simp only [hdisp, bind, Except.bind] at h
  rcases hsc : List.lookup "appliedScopes" row with _ | scopes
  · simp [hsc] at h
  simp only [hsc, bind, Except.bind] at h
  rcases hst : List.lookup "appliedScopeType" row with _ | scopeT
  · simp [hst] at h
  simp only [hst, bind, Except.bind] at h
  rcases hflex : List.lookup "InstanceFlexibility" row with _ | flex
  · simp [hflex] at h
  simp only [hflex, bind, Except.bind] at h
  simp only [Except.ok.injEq] at h
  exact ⟨sku, loc, rtype, sub, term, plan, qtyCell, qty, disp, scopes, scopeT, flex,
    rfl, rfl, rfl, rfl, rfl, rfl, rfl, hq, rfl, rfl, rfl, rfl, h.symm⟩

/-- Successful evaluation of the purchase renderer's appliedScopes block
characterizes the computed value: `None` for a NaN or empty cell, and
otherwise determined by whether the (unstripped, lower-cased) scope type
is "single". -/
theorem purchaseAppliedScopes_ok {row : Row} {applied : Option Json}
    (h : purchaseAppliedScopes row = .ok applied) :
    ∃ asCell, List.lookup "appliedScopes" row = some asCell ∧
      (((asCell = none ∨ asCell = some "") ∧ applied = none) ∨
        (∃ s ts, asCell = some s ∧ s ≠ "" ∧
          List.lookup "appliedScopeType" row = some (some ts) ∧
          ((pyLower ts = "single" ∧ applied = some (Json.str s)) ∨
            (pyLower ts ≠ "single" ∧ applied = none)))) := by
  unfold purchaseAppliedScopes at h
  simp only [reqCell, bind, Except.bind] at h
  rcases hsc : List.lookup "appliedScopes" row with _ | asCell
  · simp [hsc] at h
  simp only [hsc] at h
  rcases asCell with _ | s
  · simp only [Except.ok.injEq] at h
    exact ⟨none, rfl, Or.inl ⟨Or.inl rfl, h.symm⟩⟩
  by_cases hs : s = ""
  · subst hs
    simp only [if_pos, if_true, Except.ok.injEq] at h
    exact ⟨some "", rfl, Or.inl ⟨Or.inr rfl, h.symm⟩⟩
  · simp only [hs, if_neg, if_false] at h
    rcases hst : List.lookup "appliedScopeType" row with _ | tc
    · simp [hst] at h
    simp only [hst] at h
    rcases tc with _ | ts
    · simp at h
    by_cases hts : pyLower ts = "single"
    · simp only [hts, if_pos, if_true, Except.ok.injEq] at h
      exact ⟨some s, rfl, Or.inr ⟨s, ts, rfl, hs, rfl, Or.inl ⟨hts, h.symm⟩⟩⟩
    · simp only [hts, if_neg, if_false, Except.ok.injEq] at h
      exact ⟨some s, rfl, Or.inr ⟨s, ts, rfl, hs, rfl, Or.inr ⟨hts, h.symm⟩⟩⟩

/-- Successful evaluation of the purchase renderer's
reservedResourceProperties block characterizes it: the one-field dict
with the raw flexibility string for VirtualMachines rows, the empty
dict otherwise. -/
theorem purchaseRRP_ok {row : Row} {rrp : List (String × Json)}
    (h : purchaseRRP row = .ok rrp) :
    ∃ rt, List.lookup "reservedResourceType" row = some rt ∧
      ((pyLower (pyStrip (pyStr rt)) = "virtualmachines" ∧
          ∃ f, List.lookup "InstanceFlexibility" row = some (some f) ∧
            rrp = [("instanceFlexibility", Json.str f)]) ∨
        (pyLower (pyStrip (pyStr rt)) ≠ "virtualmachines" ∧ rrp = [])) := by
  unfold purchaseRRP at h
  simp only [reqCell, bind, Except.bind] at h
  rcases hrt : List.lookup "reservedResourceType" row with _ | rt
  · simp [hrt] at h
  simp only [hrt] at h
  by_cases hvm : pyLower (pyStrip (pyStr rt)) = "virtualmachines"
  · simp only [hvm, if_pos, if_true] at h
    rcases hf : List.lookup "InstanceFlexibility" row with _ | fc
    · simp [hf] at h
    rcases fc with _ | f
    · simp [hf] at h
    simp only [hf, Except.ok.injEq] at h
    exact ⟨rt, rfl, Or.inl ⟨hvm, f, rfl, h.symm⟩⟩
  · simp only [hvm, if_neg, if_false, Except.ok.injEq] at h
    exact ⟨rt, rfl, Or.inr ⟨hvm, h.symm⟩⟩

/-- Same characterization for the duplicated block inside
`generate_api_payloads`. -/
theorem apiRRP_ok {index : Nat} {row : Row} {rrp : List (String × Json)}
    (h : apiRRP index row = .ok rrp) :
    ∃ rt, List.lookup "reservedResourceType" row = some rt ∧
      ((pyLower (pyStrip (pyStr rt)) = "virtualmachines" ∧
          ∃ f, List.lookup "InstanceFlexibility" row = some (some f) ∧
            rrp = [("instanceFlexibility", Json.str f)]) ∨
        (pyLower (pyStrip (pyStr rt)) ≠ "virtualmachines" ∧ rrp = [])) := by
  unfold apiRRP at h
  simp only [reqCell, bind, Except.bind] at h
  rcases hrt : List.lookup "reservedResourceType" row with _ | rt
  · simp [hrt] at h
  simp only [hrt] at h
  by_cases hvm : pyLower (pyStrip (pyStr rt)) = "virtualmachines"
  · simp only [hvm, if_pos, if_true] at h
    rcases hf : List.lookup "InstanceFlexibility" row with _ | fc
    · simp [hf] at h
    rcases fc with _ | f
    · simp [hf] at h
    simp only [hf, Except.ok.injEq] at h
    exact ⟨rt, rfl, Or.inl ⟨hvm, f, rfl, h.symm⟩⟩
  · simp only [hvm, if_neg, if_false, Except.ok.injEq] at h
    exact ⟨rt, rfl, Or.inr ⟨hvm, h.symm⟩⟩

/-- Successful evaluation of the `generate_api_payloads` validation and
appliedScopes block characterizes the computed `applied_scopes` local:
the non-empty stripped value for Single scope type, `None` for
Shared/ManagementGroup. -/
theorem apiScopeGate_ok {index : Nat} {row : Row} {applied : Option String}
    (h : apiScopeGate index row = .ok applied) :
    ∃ stv asCell,
      List.lookup "appliedScopeType" row = some (some stv) ∧
      List.lookup "appliedScopes" row = some asCell ∧
      ((pyLower (pyStrip stv) = "single" ∧ applied_scopes_value asCell ≠ "" ∧
          applied = some (applied_scopes_value asCell)) ∨
        ((pyLower (pyStrip stv) = "shared" ∨ pyLower (pyStrip stv) = "managementgroup") ∧
          pyLower (pyStrip stv) ≠ "single" ∧ applied = none)) := by
  unfold apiScopeGate at h
  rcases hsc : List.lookup "appliedScopes" row with _ | asCell
  · simp [hsc] at h
  rcases hst : List.lookup "appliedScopeType" row with _ | stCell
  · simp [hsc, hst] at h
  simp only [hsc, hst, Option.isNone_some, Bool.false_eq_true, if_false, ite_false,
    Option.getD_some] at h
  rcases stCell with _ | stv
  · simp at h
  by_cases h1 : pyLower (pyStrip stv) = "single"
  · by_cases hempty : applied_scopes_value asCell = ""
    · simp [h1, hempty] at h
    · simp [h1, hempty] at h
      exact ⟨stv, asCell, rfl, rfl, Or.inl ⟨h1, hempty, h.symm⟩⟩
  · by_cases h2 : pyLower (pyStrip stv) = "shared"
    · simp [h1, h2] at h
      exact ⟨stv, asCell, rfl, rfl, Or.inr ⟨Or.inl h2, h1, h.symm⟩⟩
    · by_cases h3 : pyLower (pyStrip stv) = "managementgroup"
      · simp [h1, h2, h3] at h
        exact ⟨stv, asCell, rfl, rfl, Or.inr ⟨Or.inr h3, h1, h.symm⟩⟩
      · simp [h1, h2, h3] at h

/-- Successful purchase-payload rendering (the
`generate_api_payloads_with_order_ids` loop body) forces every lookup to
have succeeded and determines the payload shape in terms of the
appliedScopes and reservedResourceProperties blocks. -/

theorem purchasePayloadRow_ok {row : Row} {pld : Json}
    (h : purchasePayloadRow row = .ok pld) :
    ∃ applied rrp rtype sub term plan qtyCell qty disp scopeT renewCell sku loc,
      purchaseAppliedScopes row = .ok applied ∧
      purchaseRRP row = .ok rrp ∧
      List.lookup "reservedResourceType" row = some rtype ∧
      List.lookup "subscription" row = some sub ∧
      List.lookup "term" row = some term ∧
      List.lookup "billingPlan" row = some plan ∧
      List.lookup "quantity" row = some qtyCell ∧
      cellInt qtyCell = .ok qty ∧
      List.lookup "displayName" row = some disp ∧
      List.lookup "appliedScopeType" row = some scopeT ∧
      List.lookup "renew" row = some renewCell ∧
      List.lookup "SKU-name" row = some sku ∧
      List.lookup "azure region" row = some loc ∧
      pld = Json.obj [
        ("sku", Json.obj [("name", cellJson sku)]),
        ("location", cellJson loc),
        ("properties", Json.obj ([
          ("reservedResourceType", cellJson rtype),
          ("billingScopeId", Json.str ("/subscriptions/" ++ pyStr sub)),
          ("term", cellJson term),
          ("billingPlan", cellJson plan),
          ("quantity", Json.num qty),
          ("displayName", cellJson disp),
          ("appliedScopes", match applied with | none => Json.null | some j => Json.arr [j]),
          ("appliedScopeType", cellJson scopeT),
          ("renew", Json.bool (pyLower (pyStrip (pyStr renewCell)) = "yes"))] ++
          (if rrp.isEmpty then [] else [("reservedResourceProperties", Json.obj rrp)])))] := by
  unfold purchasePayloadRow at h
  simp only [reqCell, bind, Except.bind] at h
  rcases ha : purchaseAppliedScopes row with e | applied
  · simp [ha] at h
  simp only [ha] at h
  rcases hrrp : purchaseRRP row with e | rrp
  · simp [hrrp] at h
  simp only [hrrp] at h
  rcases hrt : List.lookup "reservedResourceType" row with _ | rtype
  · simp [hrt] at h
  simp only [hrt] at h
  rcases hsub : List.lookup "subscription" row with _ | sub
  · simp [hsub] at h
  simp only [hsub] at h
  rcases hterm : List.lookup "term" row with _ | term
  · simp [hterm] at h
  simp only [hterm] at h
  rcases hplan : List.lookup "billingPlan" row with _ | plan
  · simp [hplan] at h
  simp only [hplan] at h
  rcases hqc : List.lookup "quantity" row with _ | qtyCell
  · simp [hqc] at h
  simp only [hqc] at h
  rcases hq : cellInt qtyCell with e | qty
  · simp [hq] at h
  simp only [hq] at h
  rcases hdisp : List.lookup "displayName" row with _ | disp
  · simp [hdisp] at h
  simp only [hdisp] at h
  rcases hst : List.lookup "appliedScopeType" row with _ | scopeT
  · simp [hst] at h
  simp only [hst] at h
  rcases hren : List.lookup "renew" row with _ | renewCell
  · simp [hren] at h
  simp only [hren] at h
  rcases hsku : List.lookup "SKU-name" row with _ | sku
  · simp [hsku] at h
  simp only [hsku] at h
  rcases hloc : List.lookup "azure region" row with _ | loc
  · simp [hloc] at h
  simp only [hloc] at h
  simp only [Except.ok.injEq] at h
  exact ⟨applied, rrp, rtype, sub, term, plan, qtyCell, qty, disp, scopeT, renewCell, sku, loc,
    rfl, rfl, rfl, rfl, rfl, rfl, rfl, hq, rfl, rfl, rfl, rfl, rfl, h.symm⟩

/-- Successful `generate_api_payloads` row rendering forces every lookup
to have succeeded and determines the payload shape. -/
theorem apiPayloadRow_ok {index : Nat} {row : Row} {pld : Json}
    (h : apiPayloadRow index row = .ok pld) :
    ∃ applied rrp rtype sub term plan qtyCell qty disp scopeT renewCell sku loc,
      apiScopeGate index row = .ok applied ∧
      apiRRP index row = .ok rrp ∧
      List.lookup "reservedResourceType" row = some rtype ∧
      List.lookup "subscription" row = some sub ∧
      List.lookup "term" row = some term ∧
      List.lookup "billingPlan" row = some plan ∧
      List.lookup "quantity" row = some qtyCell ∧
      cellInt qtyCell = .ok qty ∧
      List.lookup "displayName" row = some disp ∧
      List.lookup "appliedScopeType" row = some scopeT ∧
      List.lookup "renew" row = some renewCell ∧
      List.lookup "SKU-name" row = some sku ∧
      List.lookup "azure region" row = some loc ∧
      pld = Json.obj [
        ("sku", Json.obj [("name", cellJson sku)]),
        ("location", cellJson loc),
        ("properties", Json.obj ([
          ("reservedResourceType", cellJson rtype),
          ("billingScopeId", Json.str ("/subscriptions/" ++ pyStr sub)),
          ("term", cellJson term),
          ("billingPlan", cellJson plan),
          ("quantity", Json.num qty),
          ("displayName", cellJson disp),
          ("appliedScopes", match applied with | none => Json.null | some s => Json.arr [Json.str s]),
          ("appliedScopeType", cellJson scopeT),
          ("renew", Json.bool (pyLower (pyStrip (pyStr renewCell)) = "yes"))] ++
          (if rrp.isEmpty then [] else [("reservedResourceProperties", Json.obj rrp)])))] := by
  unfold apiPayloadRow at h
  simp only [reqCell, bind, Except.bind] at h
  rcases ha : apiScopeGate index row with e | applied
  · simp [ha] at h
  simp only [ha] at h
  rcases hrrp : apiRRP index row with e | rrp
  · simp [hrrp] at h
  simp only [hrrp] at h
  rcases hrt : List.lookup "reservedResourceType" row with _ | rtype
  · simp [hrt] at h
  simp only [hrt] at h
  rcases hsub : List.lookup "subscription" row with _ | sub
  · simp [hsub] at h
  simp only [hsub] at h
  rcases hterm : List.lookup "term" row with _ | term
  · simp [hterm] at h
  simp only [hterm] at h
  rcases hplan : List.lookup "billingPlan" row with _ | plan
  · simp [hplan] at h
  simp only [hplan] at h
  rcases hqc : List.lookup "quantity" row with _ | qtyCell
  · simp [hqc] at h
  simp only [hqc] at h
  rcases hq : cellInt qtyCell with e | qty
  · simp [hq] at h
  simp only [hq] at h
  rcases hdisp : List.lookup "displayName" row with _ | disp
  · simp [hdisp] at h
  simp only [hdisp] at h
  rcases hst2 : List.lookup "appliedScopeType" row with _ | scopeT
  · simp [hst2] at h
  simp only [hst2] at h
  rcases hren : List.lookup "renew" row with _ | renewCell
  · simp [hren] at h
  simp only [hren] at h
  rcases hsku : List.lookup "SKU-name" row with _ | sku
  · simp [hsku] at h
  simp only [hsku] at h
  rcases hloc : List.lookup "azure region" row with _ | loc
  · simp [hloc] at h
  simp only [hloc] at h
  simp only [Except.ok.injEq] at h
  exact ⟨applied, rrp, rtype, sub, term, plan, qtyCell, qty, disp, scopeT, renewCell, sku, loc,
    rfl, rfl, rfl, rfl, rfl, rfl, rfl, hq, rfl, rfl, rfl, rfl, rfl, h.symm⟩

/-! ## Concrete fixtures for witnesses and counterexamples -/

/-- A fully-populated VirtualMachines row with Single scope,
set trigger and confirmation. -/
def vmRow : Row :=
  [("SKU-name", some "Standard_D2s_v3"), ("azure region", some "eastus"),
   ("reservedResourceType", some "VirtualMachines"), ("subscription", some "sub-123"),
   ("term", some "P3Y"), ("billingPlan", some "Monthly"), ("quantity", some "2"),
   ("displayName", some "ri-1"), ("appliedScopes", some "scope-1"),
   ("appliedScopeType", some "Single"), ("InstanceFlexibility", some "On"),
   ("renew", some "yes"), ("Purchase Trigger", some "yes"), ("Purchased Confirmed", some "yes")]

/-- A SqlDatabases row with Shared scope but a stray appliedScopes value
and a stray InstanceFlexibility value. -/
def sqlSharedRow : Row :=
  [("SKU-name", some "SQL_GP_Gen5"), ("azure region", some "westeurope"),
   ("reservedResourceType", some "SqlDatabases"), ("subscription", some "sub-456"),
   ("term", some "P1Y"), ("billingPlan", some "Upfront"), ("quantity", some "1"),
   ("displayName", some "ri-2"), ("appliedScopes", some "scope-x"),
   ("appliedScopeType", some "Shared"), ("InstanceFlexibility", some "On"),
   ("renew", some "no"), ("Purchase Trigger", some "yes"), ("Purchased Confirmed", some "yes")]

/-- `vmRow` without the two safety-gate columns. -/
def noGateRow : Row :=
  [("SKU-name", some "Standard_D2s_v3"), ("azure region", some "eastus"),
   ("reservedResourceType", some "VirtualMachines"), ("subscription", some "sub-123"),
   ("term", some "P3Y"), ("billingPlan", some "Monthly"), ("quantity", some "2"),
   ("displayName", some "ri-1"), ("appliedScopes", some "scope-1"),
   ("appliedScopeType", some "Single"), ("InstanceFlexibility", some "On"),
   ("renew", some "yes")]

/-- `sqlSharedRow` with quantity 0. -/
def qtyZeroRow : Row :=
  [("SKU-name", some "SQL_GP_Gen5"), ("azure region", some "westeurope"),
   ("reservedResourceType", some "SqlDatabases"), ("subscription", some "sub-456"),
   ("term", some "P1Y"), ("billingPlan", some "Upfront"), ("quantity", some "0"),
   ("displayName", some "ri-2"), ("appliedScopes", some "scope-x"),
   ("appliedScopeType", some "Shared"), ("InstanceFlexibility", some "On"),
   ("renew", some "no"), ("Purchase Trigger", some "yes"), ("Purchased Confirmed", some "yes")]

/-- Wrap a row as the correlated calculation result handed to the
purchase-payload generator. -/
def crOf (r : Row) (oid : String) : CalcResult :=
  { input_row := r, calculate_request := Json.null, calculate_response := Json.null,
    reservation_order_id := Json.str oid }

/-- Extract the payload of a successful rendering (fixture helper). -/
def okPayload (x : Except PyError Json) : Json := x.toOption.getD Json.null

/-! ## C10 -/

/-- C10: in every rendered payload — the calculate-mode rendering and
both purchase-mode renderings — `properties.billingScopeId` equals the
string "/subscriptions/" concatenated with the row's subscription
column value. -/
theorem c10_billing_scope_id :
    (∀ row pld sub, build_calculate_payload row = .ok pld →
      List.lookup "subscription" row = some sub →
      getProp pld "billingScopeId" = some (Json.str ("/subscriptions/" ++ pyStr sub))) ∧
    (∀ index row pld sub, apiPayloadRow index row = .ok pld →
      List.lookup "subscription" row = some sub →
      getProp pld "billingScopeId" = some (Json.str ("/subscriptions/" ++ pyStr sub))) ∧
    (∀ row pld sub, purchasePayloadRow row = .ok pld →
      List.lookup "subscription" row = some sub →
      getProp pld "billingScopeId" = some (Json.str ("/subscriptions/" ++ pyStr sub))) := by
  refine ⟨?_, ?_, ?_⟩
  · intro row pld sub h hsub
    obtain ⟨sku, loc, rtype, sub', term, plan, qtyCell, qty, disp, scopes, scopeT, flex,
      _, _, _, hsub', _, _, _, _, _, _, _, _, hpld⟩ := build_calculate_payload_ok h
    rw [hsub] at hsub'
    obtain rfl : sub = sub' := by injection hsub'
    subst hpld
    simp [getProp, jlookup, List.lookup]
  · intro index row pld sub h hsub
    obtain ⟨applied, rrp, rtype, sub', term, plan, qtyCell, qty, disp, scopeT, renewCell, sku, loc,
      _, _, _, hsub', _, _, _, _, _, _, _, _, _, hpld⟩ := apiPayloadRow_ok h
    rw [hsub] at hsub'
    obtain rfl : sub = sub' := by injection hsub'
    subst hpld
    simp [getProp, jlookup, List.lookup]
  · intro row pld sub h hsub
    obtain ⟨applied, rrp, rtype, sub', term, plan, qtyCell, qty, disp, scopeT, renewCell, sku, loc,
      _, _, _, hsub', _, _, _, _, _, _, _, _, _, hpld⟩ := purchasePayloadRow_ok h
    rw [hsub] at hsub'
    obtain rfl : sub = sub' := by injection hsub'
    subst hpld
    simp [getProp, jlookup, List.lookup]

/-- C10 witness: the three renderers applied to the concrete `vmRow`. -/
theorem c10_witness :
    getProp (okPayload (build_calculate_payload vmRow)) "billingScopeId" =
      some (Json.str ("/subscriptions/" ++ pyStr (some "sub-123"))) ∧
    getProp (okPayload (apiPayloadRow 0 vmRow)) "billingScopeId" =
      some (Json.str ("/subscriptions/" ++ pyStr (some "sub-123"))) ∧
    getProp (okPayload (purchasePayloadRow vmRow)) "billingScopeId" =
      some (Json.str ("/subscriptions/" ++ pyStr (some "sub-123"))) :=
  ⟨c10_billing_scope_id.1 vmRow (okPayload (build_calculate_payload vmRow)) (some "sub-123")
      (by rfl) (by rfl),
   c10_billing_scope_id.2.1 0 vmRow (okPayload (apiPayloadRow 0 vmRow)) (some "sub-123")
      (by rfl) (by rfl),
   c10_billing_scope_id.2.2 vmRow (okPayload (purchasePayloadRow vmRow)) (some "sub-123")
      (by rfl) (by rfl)⟩

/-! ## C9 -/

/-- C9: the rendered renew flag is true exactly when the renew column's
value, stripped and lower-cased, equals "yes"; the renew field is
present in the purchase-mode payload and absent from the calculate-mode
payload. -/
theorem c9_renew_flag :
    (∀ row pld c, purchasePayloadRow row = .ok pld →
      List.lookup "renew" row = some c →
      getProp pld "renew" = some (Json.bool (pyLower (pyStrip (pyStr c)) = "yes"))) ∧
    (∀ row pld, build_calculate_payload row = .ok pld →
      getProp pld "renew" = none) := by
  constructor
  · intro row pld c h hc
    obtain ⟨applied, rrp, rtype, sub, term, plan, qtyCell, qty, disp, scopeT, renewCell, sku, loc,
      _, _, _, _, _, _, _, _, _, _, hren, _, _, hpld⟩ := purchasePayloadRow_ok h
    rw [hc] at hren
    obtain rfl : c = renewCell := by injection hren
    subst hpld
    simp [getProp, jlookup, List.lookup]
  · intro row pld h
    obtain ⟨sku, loc, rtype, sub, term, plan, qtyCell, qty, disp, scopes, scopeT, flex,
      _, _, _, _, _, _, _, _, _, _, _, _, hpld⟩ := build_calculate_payload_ok h
    subst hpld
    simp [getProp, jlookup, List.lookup]

/-- C9 witness: `vmRow` has renew "yes" (flag true, present in the
purchase payload); the calculate payload for the same row omits renew. -/
theorem c9_witness :
    getProp (okPayload (purchasePayloadRow vmRow)) "renew" =
      some (Json.bool (pyLower (pyStrip (pyStr (some "yes"))) = "yes")) ∧
    getProp (okPayload (build_calculate_payload vmRow)) "renew" = none :=
  ⟨c9_renew_flag.1 vmRow (okPayload (purchasePayloadRow vmRow)) (some "yes") (by rfl) (by rfl),
   c9_renew_flag.2 vmRow (okPayload (build_calculate_payload vmRow)) (by rfl)⟩

/-! ## C7 -/

/-- C7 (amended): the quantity cell is converted with int(): a NaN cell
or a non-integer string raises a ValueError and no payload is rendered
(in the calculate renderer and the `generate_api_payloads` renderer
alike), but any integer that parses — zero and negative values
included — is accepted and rendered into the payload unchanged. -/
theorem c7_quantity :
    (cellInt none = .error (.valueError "cannot convert float NaN to integer")) ∧
    (∀ s, pyIntOfString s = none →
      cellInt (some s) = .error (.valueError ("invalid literal for int with base 10: " ++ s))) ∧
    (∀ s n, pyIntOfString s = some n → cellInt (some s) = .ok n) ∧
    (∀ row qc, List.lookup "quantity" row = some qc → (∀ n, cellInt qc ≠ .ok n) →
      (∀ pld, build_calculate_payload row ≠ .ok pld) ∧
      (∀ index pld, apiPayloadRow index row ≠ .ok pld)) ∧
    (∀ row pld s n, List.lookup "quantity" row = some (some s) → pyIntOfString s = some n →
      build_calculate_payload row = .ok pld → getProp pld "quantity" = some (Json.num n)) ∧
    (∀ index row pld s n, List.lookup "quantity" row = some (some s) → pyIntOfString s = some n →
      apiPayloadRow index row = .ok pld → getProp pld "quantity" = some (Json.num n)) := by
  refine ⟨rfl, ?_, ?_, ?_, ?_, ?_⟩
  · intro s hs; simp [cellInt, hs]
  · intro s n hs; simp [cellInt, hs]
  · intro row qc hqc hbad
    constructor
    · intro pld h
      obtain ⟨sku, loc, rtype, sub, term, plan, qtyCell, qty, disp, scopes, scopeT, flex,
        _, _, _, _, _, _, hqc', hq, _, _, _, _, _⟩ := build_calculate_payload_ok h
      rw [hqc] at hqc'
      obtain rfl : qc = qtyCell := by injection hqc'
      exact hbad qty hq
    · intro index pld h
      obtain ⟨applied, rrp, rtype, sub, term, plan, qtyCell, qty, disp, scopeT, renewCell, sku, loc,
        _, _, _, _, _, _, hqc', hq, _, _, _, _, _, _⟩ := apiPayloadRow_ok h
      rw [hqc] at hqc'
      obtain rfl : qc = qtyCell := by injection hqc'
      exact hbad qty hq
  · intro row pld s n hqc hs h
    obtain ⟨sku, loc, rtype, sub, term, plan, qtyCell, qty, disp, scopes, scopeT, flex,
      _, _, _, _, _, _, hqc', hq, _, _, _, _, hpld⟩ := build_calculate_payload_ok h
    rw [hqc] at hqc'
    obtain rfl : some s = qtyCell := by injection hqc'
    rw [cellInt] at hq
    rw [hs] at hq
    obtain rfl : n = qty := by injection hq
    subst hpld
    simp [getProp, jlookup, List.lookup]
  · intro index row pld s n hqc hs h
    obtain ⟨applied, rrp, rtype, sub, term, plan, qtyCell, qty, disp, scopeT, renewCell, sku, loc,
      _, _, _, _, _, _, hqc', hq, _, _, _, _, _, hpld⟩ := apiPayloadRow_ok h
    rw [hqc] at hqc'
    obtain rfl : some s = qtyCell := by injection hqc'
    rw [cellInt] at hq
    rw [hs] at hq
    obtain rfl : n = qty := by injection hq
    subst hpld
    simp [getProp, jlookup, List.lookup]

/-- C7 counterexample: quantity "0" is non-positive, yet the calculate
renderer accepts the row and renders quantity 0 instead of raising; the
claim as stated says a non-positive value raises InvalidQuantityError
rather than being rendered. -/
theorem c7_counterexample :
    List.lookup "quantity" qtyZeroRow = some (some "0") ∧
    (build_calculate_payload qtyZeroRow).map (fun p => getProp p "quantity") =
      .ok (some (Json.num 0)) := ⟨rfl, rfl⟩

/-- C7 witness: the amended theorem applied at concrete inputs — the
unparseable quantity "two" blocks rendering, and quantity "-3" parses
and is rendered as -3. -/
theorem c7_witness :
    cellInt (some "two") =
      .error (.valueError ("invalid literal for int with base 10: " ++ "two")) ∧
    (∀ pld, build_calculate_payload
      [("SKU-name", some "S"), ("azure region", some "r"),
       ("reservedResourceType", some "T"), ("subscription", some "s"),
       ("term", some "t"), ("billingPlan", some "b"), ("quantity", some "two"),
       ("displayName", some "d"), ("appliedScopes", some "a"),
       ("appliedScopeType", some "Single"), ("InstanceFlexibility", some "f"),
       ("renew", some "no")] ≠ .ok pld) ∧
    getProp (okPayload (build_calculate_payload
      [("SKU-name", some "S"), ("azure region", some "r"),
       ("reservedResourceType", some "T"), ("subscription", some "s"),
       ("term", some "t"), ("billingPlan", some "b"), ("quantity", some "-3"),
       ("displayName", some "d"), ("appliedScopes", some "a"),
       ("appliedScopeType", some "Single"), ("InstanceFlexibility", some "f"),
       ("renew", some "no")])) "quantity" = some (Json.num (-3)) :=
  ⟨c7_quantity.2.1 "two" (by rfl),
   (c7_quantity.2.2.2.1
      [("SKU-name", some "S"), ("azure region", some "r"),
       ("reservedResourceType", some "T"), ("subscription", some "s"),
       ("term", some "t"), ("billingPlan", some "b"), ("quantity", some "two"),
       ("displayName", some "d"), ("appliedScopes", some "a"),
       ("appliedScopeType", some "Single"), ("InstanceFlexibility", some "f"),
       ("renew", some "no")] (some "two") (by rfl)
      (fun n h => by simp [cellInt, show pyIntOfString "two" = none from by decide] at h)).1,
   c7_quantity.2.2.2.2.1
      [("SKU-name", some "S"), ("azure region", some "r"),
       ("reservedResourceType", some "T"), ("subscription", some "s"),
       ("term", some "t"), ("billingPlan", some "b"), ("quantity", some "-3"),
       ("displayName", some "d"), ("appliedScopes", some "a"),
       ("appliedScopeType", some "Single"), ("InstanceFlexibility", some "f"),
       ("renew", some "no")]
      (okPayload (build_calculate_payload
        [("SKU-name", some "S"), ("azure region", some "r"),
         ("reservedResourceType", some "T"), ("subscription", some "s"),
         ("term", some "t"), ("billingPlan", some "b"), ("quantity", some "-3"),
         ("displayName", some "d"), ("appliedScopes", some "a"),
         ("appliedScopeType", some "Single"), ("InstanceFlexibility", some "f"),
         ("renew", some "no")])) "-3" (-3) (by rfl) (by rfl) (by rfl)⟩

/-! ## C8 -/

/-- C8: a 200 calculate response with a (truthy) reservation order id
whose properties lack the billingCurrencyTotal block does not fail:
the extracted price defaults to amount 0 and currency "USD", and the
row's calculation completes normally. -/
theorem c8_price_defaults :
    ∀ (index : Nat) (row : Row) (resp : ApiResponse) flds pfs roid pl,
      build_calculate_payload row = .ok pl →
      resp.statusCode = 200 →
      resp.body = some (Json.obj flds) →
      List.lookup "properties" flds = some (Json.obj pfs) →
      List.lookup "reservationOrderId" pfs = some roid →
      pyTruthy roid = true →
      List.lookup "billingCurrencyTotal" pfs = none →
      calcRow index row resp = .ok (
        { input_row := row, calculate_request := pl,
          calculate_response := Json.obj flds, reservation_order_id := roid },
        (Json.num 0, Json.str "USD")) := by
  intro index row resp flds pfs roid pl hb hst hbody hprops hroid htr hbil
  unfold calcRow
  simp [hb, hst, hbody, jgetD, jlookup, hprops, hroid, htr, hbil, bind, Except.bind]

/-- C8 witness: a concrete 200 response carrying only an order id. -/
theorem c8_witness :
    calcRow 0 vmRow
      { statusCode := 200,
        body := some (Json.obj [("properties",
          Json.obj [("reservationOrderId", Json.str "order-1")])]) } = .ok (
      { input_row := vmRow,
        calculate_request := okPayload (build_calculate_payload vmRow),
        calculate_response :=
          Json.obj [("properties", Json.obj [("reservationOrderId", Json.str "order-1")])],
        reservation_order_id := Json.str "order-1" },
      (Json.num 0, Json.str "USD")) :=
  c8_price_defaults 0 vmRow
    { statusCode := 200,
      body := some (Json.obj [("properties",
        Json.obj [("reservationOrderId", Json.str "order-1")])]) }
    [("properties", Json.obj [("reservationOrderId", Json.str "order-1")])]
    [("reservationOrderId", Json.str "order-1")]
    (Json.str "order-1") (okPayload (build_calculate_payload vmRow))
    (by rfl) rfl rfl (by rfl) (by rfl) (by rfl) (by rfl)

/-! ## C2 -/

/-- C2: whenever the safety gate returns, every input entry is counted
in exactly one of eligible payloads, skipped-no-trigger or
skipped-no-confirmation (the per-entry disposition is the short-circuit
`processCalculationResult`), so the three tallies sum to the number of
input entries. -/
theorem c2_gate_partition :
    ∀ results ps snt snc,
      generate_api_payloads_with_order_ids results = .ok (ps, snt, snc) →
      ps.length + snt + snc = results.length := by
  intro results
  induction results with
  | nil =>
    intro ps snt snc h
    simp only [generate_api_payloads_with_order_ids, Except.ok.injEq, Prod.mk.injEq] at h
    obtain ⟨rfl, rfl, rfl⟩ := h
    simp
  | cons r rest ih =>
    intro ps snt snc h
    unfold generate_api_payloads_with_order_ids at h
    simp only [bind, Except.bind] at h
    rcases ho : processCalculationResult r with e | o
    · simp [ho] at h
    simp only [ho] at h
    rcases hrest : generate_api_payloads_with_order_ids rest with e | out
    · simp [hrest] at h
    simp only [hrest] at h
    obtain ⟨ps', snt', snc'⟩ := out
    have hsum := ih ps' snt' snc' hrest
    rcases o with _ | _ | p
    · simp only [Except.ok.injEq, Prod.mk.injEq] at h
      obtain ⟨rfl, rfl, rfl⟩ := h
      simp only [List.length_cons]
      omega
    · simp only [Except.ok.injEq, Prod.mk.injEq] at h
      obtain ⟨rfl, rfl, rfl⟩ := h
      simp only [List.length_cons]
      omega
    · simp only [Except.ok.injEq, Prod.mk.injEq] at h
      obtain ⟨rfl, rfl, rfl⟩ := h
      simp only [List.length_cons]
      omega

/-- `vmRow` with the purchase trigger set to "no". -/
def trigOffRow : Row :=
  [("SKU-name", some "Standard_D2s_v3"), ("azure region", some "eastus"),
   ("reservedResourceType", some "VirtualMachines"), ("subscription", some "sub-123"),
   ("term", some "P3Y"), ("billingPlan", some "Monthly"), ("quantity", some "2"),
   ("displayName", some "ri-1"), ("appliedScopes", some "scope-1"),
   ("appliedScopeType", some "Single"), ("InstanceFlexibility", some "On"),
   ("renew", some "yes"), ("Purchase Trigger", some "no"), ("Purchased Confirmed", some "yes")]

/-- `vmRow` with a blank (NaN) purchase confirmation. -/
def confOffRow : Row :=
  [("SKU-name", some "Standard_D2s_v3"), ("azure region", some "eastus"),
   ("reservedResourceType", some "VirtualMachines"), ("subscription", some "sub-123"),
   ("term", some "P3Y"), ("billingPlan", some "Monthly"), ("quantity", some "2"),
   ("displayName", some "ri-1"), ("appliedScopes", some "scope-1"),
   ("appliedScopeType", some "Single"), ("InstanceFlexibility", some "On"),
   ("renew", some "yes"), ("Purchase Trigger", some "yes"), ("Purchased Confirmed", none)]

/-- A three-entry batch: one eligible, one trigger-skipped, one
confirmation-skipped. -/
def c2Results : List CalcResult :=
  [crOf vmRow "o1", crOf trigOffRow "o2", crOf confOffRow "o3"]

/-- The gate output on `c2Results`. -/
def c2Out : List PayloadEntry × Nat × Nat :=
  ((generate_api_payloads_with_order_ids c2Results).toOption).getD ([], 0, 0)

/-- C2 witness: on the concrete three-entry batch the tallies sum to 3. -/
theorem c2_witness : c2Out.1.length + c2Out.2.1 + c2Out.2.2 = 3 :=
  c2_gate_partition c2Results c2Out.1 c2Out.2.1 c2Out.2.2 (by rfl)

/-! ## C6 -/

/-- C6 (amended): the batch executor returns exactly one result per
entry, in input order, each independent of the other entries (so one
failure never halts the rest); a transport exception yields
success=false with no status code, and a non-2xx response yields
success=false carrying its status code.  (A malformed response body
does *not* force success=false: it only falls back to a raw-text body,
see the counterexample.) -/
theorem c6_batch_executor :
    ∀ (payloads : List PayloadEntry) (apiVersion : String)
      (transport : Nat → Except String HttpResp),
      (execute_batch_purchases payloads apiVersion transport).length = payloads.length ∧
      (∀ i : Nat, (execute_batch_purchases payloads apiVersion transport)[i]? =
        (payloads[i]?).map fun p =>
          execute_purchase_request p.reservation_order_id p.payload apiVersion (transport i)) ∧
      (∀ ros pld v e, (execute_purchase_request ros pld v (.error e)).success = false ∧
        (execute_purchase_request ros pld v (.error e)).status_code = none) ∧
      (∀ ros pld v resp, ¬(200 ≤ resp.statusCode ∧ resp.statusCode < 300) →
        (execute_purchase_request ros pld v (.ok resp)).success = false ∧
        (execute_purchase_request ros pld v (.ok resp)).status_code = some resp.statusCode) := by
  intro payloads apiVersion transport
  refine ⟨?_, ?_, ?_, ?_⟩
  · simp [execute_batch_purchases]
  · intro i
    simp only [execute_batch_purchases, List.getElem?_map, List.getElem?_enum]
    cases payloads[i]? <;> simp
  · intro ros pld v e
    exact ⟨rfl, rfl⟩
  · intro ros pld v resp hne
    refine ⟨?_, rfl⟩
    simp only [execute_purchase_request]
    simpa using hne

/-- Two-entry fixture batch for the executor. -/
def c6Payloads : List PayloadEntry :=
  [{ payload := Json.obj [], reservation_order_id := Json.str "o1" },
   { payload := Json.obj [], reservation_order_id := Json.str "o2" }]

/-- Fixture transport: the first call raises, the second is throttled. -/
def c6Transport : Nat → Except String HttpResp :=
  fun i => if i = 0 then .error "connection reset"
           else .ok { statusCode := 429, content := .empty }

/-- C6 witness: the amended theorem applied to the concrete two-entry
batch whose first call raises and whose second call returns 429. -/
theorem c6_witness :
    (execute_batch_purchases c6Payloads "2022-11-01" c6Transport).length = c6Payloads.length ∧
    ((execute_batch_purchases c6Payloads "2022-11-01" c6Transport)[0]? =
      (c6Payloads[0]?).map fun p =>
        execute_purchase_request p.reservation_order_id p.payload "2022-11-01" (c6Transport 0)) ∧
    ((execute_purchase_request (Json.str "o1") (Json.obj []) "2022-11-01"
        (.error "connection reset")).success = false ∧
      (execute_purchase_request (Json.str "o1") (Json.obj []) "2022-11-01"
        (.error "connection reset")).status_code = none) ∧
    ((execute_purchase_request (Json.str "o2") (Json.obj []) "2022-11-01"
        (.ok { statusCode := 429, content := .empty })).success = false ∧
      (execute_purchase_request (Json.str "o2") (Json.obj []) "2022-11-01"
        (.ok { statusCode := 429, content := .empty })).status_code = some 429) :=
  ⟨(c6_batch_executor c6Payloads "2022-11-01" c6Transport).1,
   (c6_batch_executor c6Payloads "2022-11-01" c6Transport).2.1 0,
   (c6_batch_executor c6Payloads "2022-11-01" c6Transport).2.2.1
     (Json.str "o1") (Json.obj []) "2022-11-01" "connection reset",
   (c6_batch_executor c6Payloads "2022-11-01" c6Transport).2.2.2
     (Json.str "o2") (Json.obj []) "2022-11-01"
     { statusCode := 429, content := .empty } (by decide)⟩

/-- C6 counterexample: a 200 response whose body fails JSON decoding
yields success = true with the raw-text fallback body — the claim as
stated says a malformed response body yields success = false. -/
theorem c6_counterexample :
    (execute_batch_purchases
      [{ payload := Json.obj [], reservation_order_id := Json.str "o1" }] "2022-11-01"
      (fun _ => .ok { statusCode := 200, content := .rawText "<html>not json" })).map
        (fun r => (r.success, r.status_code, r.response_body)) =
      [(true, some 200, Json.obj [("raw_content", Json.str "<html>not json")])] := by rfl

/-! ## C3 -/

/-- C3 (amended): the Single-vs-Shared appliedScopes rule holds for the
purchase-mode renderings — `generate_api_payloads_with_order_ids`
renders the raw value as a one-element list exactly when the
(unstripped, lower-cased) scope type is "single" and null otherwise
(also null whenever the value is NaN or empty), and
`generate_api_payloads` renders a one-element list of the *stripped*
value for Single and null for Shared/ManagementGroup — but the
calculate-mode rendering (`build_calculate_payload`) ignores the scope
type entirely and passes the raw scalar value through, null only when
the value is NaN or empty. -/
theorem c3_applied_scopes :
    (∀ row pld s ts, purchasePayloadRow row = .ok pld →
      List.lookup "appliedScopes" row = some (some s) → s ≠ "" →
      List.lookup "appliedScopeType" row = some (some ts) →
      getProp pld "appliedScopes" =
        some (if pyLower ts = "single" then Json.arr [Json.str s] else Json.null)) ∧
    (∀ row pld c, purchasePayloadRow row = .ok pld →
      List.lookup "appliedScopes" row = some c → (c = none ∨ c = some "") →
      getProp pld "appliedScopes" = some Json.null) ∧
    (∀ index row pld stv asCell, apiPayloadRow index row = .ok pld →
      List.lookup "appliedScopeType" row = some (some stv) →
      List.lookup "appliedScopes" row = some asCell →
      getProp pld "appliedScopes" =
        some (if pyLower (pyStrip stv) = "single"
          then Json.arr [Json.str (applied_scopes_value asCell)] else Json.null)) ∧
    (∀ row pld c, build_calculate_payload row = .ok pld →
      List.lookup "appliedScopes" row = some c →
      getProp pld "appliedScopes" =
        some (match c with
          | none => Json.null
          | some s => if s = "" then Json.null else Json.str s)) := by
  refine ⟨?_, ?_, ?_, ?_⟩
  · intro row pld s ts h hsc hs hst
    obtain ⟨applied, rrp, rtype, sub, term, plan, qtyCell, qty, disp, scopeT, renewCell, sku, loc,
      hpas, _, _, _, _, _, _, _, _, _, _, _, _, hpld⟩ := purchasePayloadRow_ok h
    obtain ⟨asCell, hasc, hcases⟩ := purchaseAppliedScopes_ok hpas
    rw [hsc] at hasc
    obtain rfl : some s = asCell := by injection hasc
    rcases hcases with ⟨hblank, _⟩ | ⟨s', ts', hss', _, hst', hrest⟩
    · rcases hblank with h0 | h0
      · exact absurd h0 (by simp)
      · exact absurd (by injection h0) hs
    · obtain rfl : s = s' := by injection hss'
      rw [hst] at hst'
      obtain rfl : ts = ts' := by simpa using hst'
      rcases hrest with ⟨hts, rfl⟩ | ⟨hts, rfl⟩
      · subst hpld
        simp [getProp, jlookup, List.lookup, hts]
      · subst hpld
        simp [getProp, jlookup, List.lookup, hts]
  · intro row pld c h hsc hblank
    obtain ⟨applied, rrp, rtype, sub, term, plan, qtyCell, qty, disp, scopeT, renewCell, sku, loc,
      hpas, _, _, _, _, _, _, _, _, _, _, _, _, hpld⟩ := purchasePayloadRow_ok h
    obtain ⟨asCell, hasc, hcases⟩ := purchaseAppliedScopes_ok hpas
    rw [hsc] at hasc
    obtain rfl : c = asCell := by injection hasc
    rcases hcases with ⟨_, rfl⟩ | ⟨s', ts', rfl, hne, _, _⟩
    · subst hpld
      simp [getProp, jlookup, List.lookup]
    · rcases hblank with h0 | h0
      · exact absurd h0 (by simp)
      · exact absurd (by injection h0) hne
  · intro index row pld stv asCell h hst hsc
    obtain ⟨applied, rrp, rtype, sub, term, plan, qtyCell, qty, disp, scopeT, renewCell, sku, loc,
      hgate, _, _, _, _, _, _, _, _, _, _, _, _, hpld⟩ := apiPayloadRow_ok h
    obtain ⟨stv', asCell', hst', hsc', hcases⟩ := apiScopeGate_ok hgate
    rw [hst] at hst'
    obtain rfl : stv = stv' := by simpa using hst'
    rw [hsc] at hsc'
    obtain rfl : asCell = asCell' := by injection hsc'
    rcases hcases with ⟨hts, _, rfl⟩ | ⟨_, hts, rfl⟩
    · subst hpld
      simp [getProp, jlookup, List.lookup, hts]
    · subst hpld
      simp [getProp, jlookup, List.lookup, hts]
  · intro row pld c h hsc
    obtain ⟨sku, loc, rtype, sub, term, plan, qtyCell, qty, disp, scopes, scopeT, flex,
      _, _, _, _, _, _, _, _, _, hsc', _, _, hpld⟩ := build_calculate_payload_ok h
    rw [hsc] at hsc'
    obtain rfl : c = scopes := by injection hsc'
    subst hpld
    simp [getProp, jlookup, List.lookup]

/-- C3 counterexample: a Shared row with a supplied appliedScopes value —
the calculate-mode rendering passes the raw string through instead of
the null that the claim requires for Shared scope. -/
theorem c3_counterexample :
    List.lookup "appliedScopeType" sqlSharedRow = some (some "Shared") ∧
    (build_calculate_payload sqlSharedRow).map (fun p => getProp p "appliedScopes") =
      .ok (some (Json.str "scope-x")) ∧
    Json.str "scope-x" ≠ Json.null := ⟨rfl, rfl, by simp⟩

/-- C3 witness: the amended theorem at concrete rows — Single renders
the one-element list, Shared renders null in purchase mode, and the
calculate payload carries the raw Shared-row value. -/
theorem c3_witness :
    getProp (okPayload (purchasePayloadRow vmRow)) "appliedScopes" =
      some (if pyLower "Single" = "single" then Json.arr [Json.str "scope-1"] else Json.null) ∧
    getProp (okPayload (apiPayloadRow 0 sqlSharedRow)) "appliedScopes" =
      some (if pyLower (pyStrip "Shared") = "single"
        then Json.arr [Json.str (applied_scopes_value (some "scope-x"))] else Json.null) ∧
    getProp (okPayload (build_calculate_payload sqlSharedRow)) "appliedScopes" =
      some (match (some "scope-x" : Cell) with
        | none => Json.null
        | some s => if s = "" then Json.null else Json.str s) :=
  ⟨c3_applied_scopes.1 vmRow (okPayload (purchasePayloadRow vmRow)) "scope-1" "Single"
     (by rfl) (by rfl) (by decide) (by rfl),
   c3_applied_scopes.2.2.1 0 sqlSharedRow (okPayload (apiPayloadRow 0 sqlSharedRow))
     "Shared" (some "scope-x") (by rfl) (by rfl) (by rfl),
   c3_applied_scopes.2.2.2 sqlSharedRow (okPayload (build_calculate_payload sqlSharedRow))
     (some "scope-x") (by rfl) (by rfl)⟩

/-! ## C4 -/

/-- C4 (amended): the VirtualMachines-only instanceFlexibility rule
holds for both purchase-mode renderings — for a VM row the
reservedResourceProperties block is present with exactly the raw input
value (a missing or NaN value is an error), for any other resource type
the block is entirely absent — but the calculate-mode rendering
(`build_calculate_payload`) always includes the block with the raw
InstanceFlexibility cell, for every resource type. -/
theorem c4_instance_flexibility :
    (∀ row pld rt, purchasePayloadRow row = .ok pld →
      List.lookup "reservedResourceType" row = some rt →
      pyLower (pyStrip (pyStr rt)) = "virtualmachines" →
      ∃ f, List.lookup "InstanceFlexibility" row = some (some f) ∧
        getProp pld "reservedResourceProperties" =
          some (Json.obj [("instanceFlexibility", Json.str f)])) ∧
    (∀ row rt, List.lookup "reservedResourceType" row = some rt →
      pyLower (pyStrip (pyStr rt)) = "virtualmachines" →
      (List.lookup "InstanceFlexibility" row = none ∨
        List.lookup "InstanceFlexibility" row = some none) →
      ∀ pld, purchasePayloadRow row ≠ .ok pld) ∧
    (∀ row pld rt, purchasePayloadRow row = .ok pld →
      List.lookup "reservedResourceType" row = some rt →
      pyLower (pyStrip (pyStr rt)) ≠ "virtualmachines" →
      getProp pld "reservedResourceProperties" = none) ∧
    (∀ index row pld rt, apiPayloadRow index row = .ok pld →
      List.lookup "reservedResourceType" row = some rt →
      pyLower (pyStrip (pyStr rt)) = "virtualmachines" →
      ∃ f, List.lookup "InstanceFlexibility" row = some (some f) ∧
        getProp pld "reservedResourceProperties" =
          some (Json.obj [("instanceFlexibility", Json.str f)])) ∧
    (∀ index row rt, List.lookup "reservedResourceType" row = some rt →
      pyLower (pyStrip (pyStr rt)) = "virtualmachines" →
      (List.lookup "InstanceFlexibility" row = none ∨
        List.lookup "InstanceFlexibility" row = some none) →
      ∀ pld, apiPayloadRow index row ≠ .ok pld) ∧
    (∀ index row pld rt, apiPayloadRow index row = .ok pld →
      List.lookup "reservedResourceType" row = some rt →
      pyLower (pyStrip (pyStr rt)) ≠ "virtualmachines" →
      getProp pld "reservedResourceProperties" = none) ∧
    (∀ row pld flex, build_calculate_payload row = .ok pld →
      List.lookup "InstanceFlexibility" row = some flex →
      getProp pld "reservedResourceProperties" =
        some (Json.obj [("instanceFlexibility", cellJson flex)])) := by
  refine ⟨?_, ?_, ?_, ?_, ?_, ?_, ?_⟩
  · intro row pld rt h hrt hvm
    obtain ⟨applied, rrp, rtype, sub, term, plan, qtyCell, qty, disp, scopeT, renewCell, sku, loc,
      _, hrrp, hrt', _, _, _, _, _, _, _, _, _, _, hpld⟩ := purchasePayloadRow_ok h
    rw [hrt] at hrt'
    obtain rfl : rt = rtype := by injection hrt'
    obtain ⟨rt2, hrt2, hcases⟩ := purchaseRRP_ok hrrp
    rw [hrt] at hrt2
    obtain rfl : rt = rt2 := by injection hrt2
    rcases hcases with ⟨_, f, hf, rfl⟩ | ⟨hnvm, _⟩
    · refine ⟨f, hf, ?_⟩
      subst hpld
      simp [getProp, jlookup, List.lookup]
    · exact absurd hvm hnvm
  · intro row rt hrt hvm hmiss pld h
    obtain ⟨applied, rrp, rtype, sub, term, plan, qtyCell, qty, disp, scopeT, renewCell, sku, loc,
      _, hrrp, hrt', _, _, _, _, _, _, _, _, _, _, _⟩ := purchasePayloadRow_ok h
    obtain ⟨rt2, hrt2, hcases⟩ := purchaseRRP_ok hrrp
    rw [hrt] at hrt2
    obtain rfl : rt = rt2 := by injection hrt2
    rcases hcases with ⟨_, f, hf, _⟩ | ⟨hnvm, _⟩
    · rcases hmiss with h0 | h0 <;> rw [h0] at hf <;> simp at hf
    · exact absurd hvm hnvm
  · intro row pld rt h hrt hnvm
    obtain ⟨applied, rrp, rtype, sub, term, plan, qtyCell, qty, disp, scopeT, renewCell, sku, loc,
      _, hrrp, hrt', _, _, _, _, _, _, _, _, _, _, hpld⟩ := purchasePayloadRow_ok h
    obtain ⟨rt2, hrt2, hcases⟩ := purchaseRRP_ok hrrp
    rw [hrt] at hrt2
    obtain rfl : rt = rt2 := by injection hrt2
    rcases hcases with ⟨hvm, _⟩ | ⟨_, rfl⟩
    · exact absurd hvm hnvm
    · subst hpld
      simp [getProp, jlookup, List.lookup]
  · intro index row pld rt h hrt hvm
    obtain ⟨applied, rrp, rtype, sub, term, plan, qtyCell, qty, disp, scopeT, renewCell, sku, loc,
      _, hrrp, hrt', _, _, _, _, _, _, _, _, _, _, hpld⟩ := apiPayloadRow_ok h
    obtain ⟨rt2, hrt2, hcases⟩ := apiRRP_ok hrrp
    rw [hrt] at hrt2
    obtain rfl : rt = rt2 := by injection hrt2
    rcases hcases with ⟨_, f, hf, rfl⟩ | ⟨hnvm, _⟩
    · refine ⟨f, hf, ?_⟩
      subst hpld
      simp [getProp, jlookup, List.lookup]
    · exact absurd hvm hnvm
  · intro index row rt hrt hvm hmiss pld h
    obtain ⟨applied, rrp, rtype, sub, term, plan, qtyCell, qty, disp, scopeT, renewCell, sku, loc,
      _, hrrp, _, _, _, _, _, _, _, _, _, _, _, _⟩ := apiPayloadRow_ok h
    obtain ⟨rt2, hrt2, hcases⟩ := apiRRP_ok hrrp
    rw [hrt] at hrt2
    obtain rfl : rt = rt2 := by injection hrt2
    rcases hcases with ⟨_, f, hf, _⟩ | ⟨hnvm, _⟩
    · rcases hmiss with h0 | h0 <;> rw [h0] at hf <;> simp at hf
    · exact absurd hvm hnvm
  · intro index row pld rt h hrt hnvm
    obtain ⟨applied, rrp, rtype, sub, term, plan, qtyCell, qty, disp, scopeT, renewCell, sku, loc,
      _, hrrp, _, _, _, _, _, _, _, _, _, _, _, hpld⟩ := apiPayloadRow_ok h
    obtain ⟨rt2, hrt2, hcases⟩ := apiRRP_ok hrrp
    rw [hrt] at hrt2
    obtain rfl : rt = rt2 := by injection hrt2
    rcases hcases with ⟨hvm, _⟩ | ⟨_, rfl⟩
    · exact absurd hvm hnvm
    · subst hpld
      simp [getProp, jlookup, List.lookup]
  · intro row pld flex h hflex
    obtain ⟨sku, loc, rtype, sub, term, plan, qtyCell, qty, disp, scopes, scopeT, flex',
      _, _, _, _, _, _, _, _, _, _, _, hflex', hpld⟩ := build_calculate_payload_ok h
    rw [hflex] at hflex'
    obtain rfl : flex = flex' := by injection hflex'
    subst hpld
    simp [getProp, jlookup, List.lookup]

/-- C4 counterexample: a SqlDatabases row with a stray
InstanceFlexibility value — the calculate-mode rendering includes the
reservedResourceProperties block that the claim requires to be entirely
absent for non-VM resource types. -/
theorem c4_counterexample :
    List.lookup "reservedResourceType" sqlSharedRow = some (some "SqlDatabases") ∧
    (build_calculate_payload sqlSharedRow).map
      (fun p => getProp p "reservedResourceProperties") =
      .ok (some (Json.obj [("instanceFlexibility", Json.str "On")])) ∧
    (some (Json.obj [("instanceFlexibility", Json.str "On")]) : Option Json) ≠ none :=
  ⟨rfl, rfl, by simp⟩

/-- C4 witness: the amended theorem at concrete rows — the VM purchase
payload carries the input flexibility, a VM row without the column
cannot render, the non-VM purchase payload omits the block, and the
non-VM calculate payload still carries it. -/
theorem c4_witness :
    (∃ f, List.lookup "InstanceFlexibility" vmRow = some (some f) ∧
      getProp (okPayload (purchasePayloadRow vmRow)) "reservedResourceProperties" =
        some (Json.obj [("instanceFlexibility", Json.str f)])) ∧
    (∀ pld, purchasePayloadRow
      [("SKU-name", some "S"), ("azure region", some "r"),
       ("reservedResourceType", some "VirtualMachines"), ("subscription", some "s"),
       ("term", some "t"), ("billingPlan", some "b"), ("quantity", some "1"),
       ("displayName", some "d"), ("appliedScopes", some "a"),
       ("appliedScopeType", some "Single"), ("InstanceFlexibility", none),
       ("renew", some "no")] ≠ .ok pld) ∧
    getProp (okPayload (purchasePayloadRow sqlSharedRow)) "reservedResourceProperties" = none ∧
    getProp (okPayload (build_calculate_payload sqlSharedRow)) "reservedResourceProperties" =
      some (Json.obj [("instanceFlexibility", cellJson (some "On"))]) :=
  ⟨c4_instance_flexibility.1 vmRow (okPayload (purchasePayloadRow vmRow))
     (some "VirtualMachines") (by rfl) (by rfl) (by decide),
   c4_instance_flexibility.2.1
     [("SKU-name", some "S"), ("azure region", some "r"),
      ("reservedResourceType", some "VirtualMachines"), ("subscription", some "s"),
      ("term", some "t"), ("billingPlan", some "b"), ("quantity", some "1"),
      ("displayName", some "d"), ("appliedScopes", some "a"),
      ("appliedScopeType", some "Single"), ("InstanceFlexibility", none),
      ("renew", some "no")] (some "VirtualMachines") (by rfl) (by decide) (Or.inr (by rfl)),
   c4_instance_flexibility.2.2.1 sqlSharedRow (okPayload (purchasePayloadRow sqlSharedRow))
     (some "SqlDatabases") (by rfl) (by rfl) (by decide),
   c4_instance_flexibility.2.2.2.2.2.2 sqlSharedRow
     (okPayload (build_calculate_payload sqlSharedRow)) (some "On") (by rfl) (by rfl)⟩

/-! ## C1 -/

/-- The post-trigger tail of the gate never classifies an entry as
trigger-skipped. -/
theorem confirmAndRender_ne_trigger {r : CalcResult} {out : EntryOutcome}
    (h : confirmAndRender r = .ok out) : out ≠ .skippedTrigger := by
  unfold confirmAndRender at h
  split at h
  · simp only [Except.ok.injEq] at h
    subst h
    simp
  · rcases hp : purchasePayloadRow r.input_row with e | pld
    · simp [hp, Except.map] at h
    · simp only [hp, Except.map] at h
      simp only [Except.ok.injEq] at h
      subst h
      simp

/-- C1 (amended): the trigger predicate accepts exactly the values whose
stripped, lower-cased form is 1, y or yes (a NaN cell is never set);
per entry, the gate counts it as trigger-skipped exactly when the
Purchase Trigger column is *present* with a non-affirmative value — an
entry whose trigger column is absent from the row bypasses the trigger
check and can become eligible. -/
theorem c1_trigger_gate :
    (is_purchase_trigger_set none = false) ∧
    (∀ s, is_purchase_trigger_set (some s) =
      (pyLower (pyStrip s) = "1" || pyLower (pyStrip s) = "y" ||
        pyLower (pyStrip s) = "yes")) ∧
    (∀ r out, processCalculationResult r = .ok out →
      (out = .skippedTrigger ↔
        ∃ c, List.lookup "Purchase Trigger" r.input_row = some c ∧
          is_purchase_trigger_set c = false)) := by
  refine ⟨rfl, fun s => rfl, ?_⟩
  intro r out h
  unfold processCalculationResult at h
  rcases htr : List.lookup "Purchase Trigger" r.input_row with _ | c
  · simp only [htr] at h
    constructor
    · intro hout
      exact absurd hout (confirmAndRender_ne_trigger (by simpa using h))
    · rintro ⟨c, hc, _⟩
      exact Option.noConfusion hc
  · simp only [htr] at h
    by_cases hset : is_purchase_trigger_set c
    · simp only [hset, Bool.not_true, Bool.false_eq_true, if_false, ite_false] at h
      constructor
      · intro hout
        exact absurd hout (confirmAndRender_ne_trigger (by simpa using h))
      · rintro ⟨c', hc', hfalse⟩
        obtain rfl : c = c' := by injection hc'
        rw [hset] at hfalse
        exact Bool.noConfusion hfalse
    · simp only [Bool.not_eq_true] at hset
      simp only [hset, Bool.not_false, if_true, ite_true, Except.ok.injEq] at h
      constructor
      · intro _
        exact ⟨c, rfl, hset⟩
      · intro _
        exact h.symm

/-- C1 counterexample: a fully valid row *without* a Purchase Trigger
column flows straight through the gate and produces a purchase payload,
while the claim says an entry whose trigger column is absent is not
eligible. -/
theorem c1_counterexample :
    List.lookup "Purchase Trigger" noGateRow = none ∧
    (generate_api_payloads_with_order_ids [crOf noGateRow "o1"]).map
      (fun out => (out.1.length, out.2.1, out.2.2)) = .ok (1, 0, 0) := ⟨rfl, rfl⟩

/-- C1 witness: the amended theorem at concrete inputs — a NaN trigger
is not set, " YES " normalizes to an affirmative value, and the row
whose trigger is "no" is classified as trigger-skipped. -/
theorem c1_witness :
    is_purchase_trigger_set none = false ∧
    is_purchase_trigger_set (some " YES ") =
      (pyLower (pyStrip " YES ") = "1" || pyLower (pyStrip " YES ") = "y" ||
        pyLower (pyStrip " YES ") = "yes") ∧
    (EntryOutcome.skippedTrigger = EntryOutcome.skippedTrigger ↔
      ∃ c, List.lookup "Purchase Trigger" (crOf trigOffRow "o2").input_row = some c ∧
        is_purchase_trigger_set c = false) :=
  ⟨c1_trigger_gate.1,
   c1_trigger_gate.2.1 " YES ",
   c1_trigger_gate.2.2 (crOf trigOffRow "o2") .skippedTrigger (by rfl)⟩

/-! ## C5 -/

/-- C5 (amended): for a *200* calculate response whose body lacks a
(truthy) properties.reservationOrderId, the row raises exactly the
"No reservation order ID returned" ValueError; and the calculation run
only returns results when every row's call succeeded — any failing row
makes `calculate_reservation_order` return an error, so no result list
(and hence no purchase payload) is ever produced from a run containing
such a row.  (A non-200 status — 2xx or not — aborts through the
HTTP-failure path instead, with a different error; see the
counterexample.) -/
theorem c5_no_order_id :
    (∀ (index : Nat) (row : Row) (resp : ApiResponse) (body pl : Json),
      build_calculate_payload row = .ok pl →
      resp.statusCode = 200 →
      resp.body = some body →
      (jlookup (jgetD body "properties") "reservationOrderId" = none ∨
        ∃ v, jlookup (jgetD body "properties") "reservationOrderId" = some v ∧
          pyTruthy v = false) →
      calcRow index row resp = .error (.valueError
        ("No reservation order ID returned in API response for row " ++
          toString (index + 1)))) ∧
    (∀ (net : Nat → ApiResponse) (rows : List Row) (i : Nat) out,
      calculate_reservation_order net i rows = .ok out →
      ∀ (k : Nat) (hk : k < rows.length),
        ∃ res, calcRow (i + k) rows[k] (net (i + k)) = .ok res) := by
  constructor
  · intro index row resp body pl hb hst hbody hmiss
    unfold calcRow
    simp only [hb, hst, hbody, bind, Except.bind, if_pos, if_true]
    rcases hmiss with h0 | ⟨v, h0, htr⟩
    · simp [h0]
    · simp [h0, htr]
  · intro net rows
    induction rows with
    | nil =>
      intro i out h k hk
      exact absurd hk (by simp)
    | cons row rest ih =>
      intro i out h k hk
      unfold calculate_reservation_order at h
      simp only [bind, Except.bind] at h
      rcases hc : calcRow i row (net i) with e | res
      · simp [hc] at h
      simp only [hc] at h
      rcases hrest : calculate_reservation_order net (i + 1) rest with e | out'
      · simp [hrest] at h
      cases k with
      | zero =>
        refine ⟨res, ?_⟩
        simpa using hc
      | succ m =>
        obtain ⟨res', hres'⟩ := ih (i + 1) out' hrest m (by simpa using hk)
        refine ⟨res', ?_⟩
        have harith : i + (m + 1) = (i + 1) + m := by omega
        rw [harith]
        simpa using hres'

/-- A 200 calculate response whose body has no order id. -/
def respNoId200 : ApiResponse :=
  { statusCode := 200, body := some (Json.obj [("properties", Json.obj [])]) }

/-- A 201 (2xx but non-200) calculate response whose body has no order
id. -/
def respNoId201 : ApiResponse :=
  { statusCode := 201, body := some (Json.obj [("properties", Json.obj [])]) }

/-- C5 counterexample: a 2xx-but-not-200 response lacking an order id
aborts through the wrapped HTTP-failure exception, not the
"No reservation order ID returned" ValueError the claim names for every
2xx response. -/
theorem c5_counterexample :
    (200 ≤ respNoId201.statusCode ∧ respNoId201.statusCode < 300) ∧
    jlookup (jgetD (Json.obj [("properties", Json.obj [])]) "properties")
      "reservationOrderId" = none ∧
    calcRow 0 vmRow respNoId201 = .error (.exception
      "Failed to calculate reservation for row 1 (Standard_D2s_v3): API call failed with status 201") ∧
    (PyError.exception
      "Failed to calculate reservation for row 1 (Standard_D2s_v3): API call failed with status 201" ≠
      PyError.valueError "No reservation order ID returned in API response for row 1") :=
  ⟨by decide, rfl, by rfl, by decide⟩

/-- Endpoint fixture that always returns a 200 response carrying an
order id. -/
def net200ok : Nat → ApiResponse :=
  fun _ =>
    { statusCode := 200
      body := some (Json.obj [("properties",
        Json.obj [("reservationOrderId", Json.str "order-1")])]) }

/-- The successful one-row calculation run on `vmRow`. -/
def c5RunOut : List CalcResult × List (Json × Json) :=
  ((calculate_reservation_order net200ok 0 [vmRow]).toOption).getD ([], [])

/-- C5 witness: the amended theorem at concrete inputs — the 200
no-order-id response raises the named ValueError on `vmRow`, and the
successful one-row run has a successful `calcRow` at index 0. -/
theorem c5_witness :
    calcRow 0 vmRow respNoId200 = .error (.valueError
      ("No reservation order ID returned in API response for row " ++ toString (0 + 1))) ∧
    (∃ res, calcRow (0 + 0) [vmRow][0] (net200ok (0 + 0)) = .ok res) :=
  ⟨c5_no_order_id.1 0 vmRow respNoId200 (Json.obj [("properties", Json.obj [])])
     (okPayload (build_calculate_payload vmRow)) (by rfl) rfl rfl (Or.inl (by rfl)),
   c5_no_order_id.2 net200ok [vmRow] 0 (c5RunOut.1, c5RunOut.2) (by rfl) 0 (by decide)⟩
